import Mathlib

/-!
Verification development for the RagToRiches repository: shallow embeddings of
the gold-price edge function, the hybrid-chat handler (intent detection,
document-context assembly, gateway error mapping), the transcribe-media edge
function, and the client-side upload validation, together with theorems about
the behavioural properties stated in the specification.

JavaScript numbers are modelled as rationals (`Rat`); JavaScript strings as
Lean `String` with `.slice(0, n)` modelled as taking the first `n` characters
and `.length` as the character count.
-/

/-! ### Shared string helpers -/

/-- Model of the JavaScript `s.slice(0, n)` truncation on strings. -/
def strTake (s : String) (n : Nat) : String := ⟨s.data.take n⟩

/-! ### Gold price fetcher (src/supabase/functions/gold-prices/index.ts)

The handler initialises `goldPriceUSD = 0`, assigns the primary provider's
`data.price` when the request succeeds and the field is truthy, then (only when
`goldPriceUSD` is still falsy) assigns the fallback provider's `rates.USD` when
that request succeeds and the field is truthy, and finally substitutes the
constant 2680 when the accumulated value is falsy or below 100.  A provider
outcome is modelled as `Option Rat`: `none` for a failed / non-ok / field-less
response, `some p` for a response carrying the numeric value `p` (a truthy
check on a number is a non-zero check). -/

/-- `goldPriceUSD` after the primary attempt and the conditional fallback
attempt (lines 14-54 of the handler). -/
def goldAfterFallback (primary fallback : Option Rat) : Rat :=
  let g1 : Rat := match primary with
    | some p => if p ≠ 0 then p else 0
    | none => 0
  if g1 = 0 then
    match fallback with
    | some q => if q ≠ 0 then q else g1
    | none => g1
  else g1

/-- Final `goldPriceUSD` after the `!goldPriceUSD || goldPriceUSD < 100`
substitution by the constant 2680 (lines 57-59). -/
def resolveGoldPriceUSD (primary fallback : Option Rat) : Rat :=
  if goldAfterFallback primary fallback = 0 ∨ goldAfterFallback primary fallback < 100 then 2680
  else goldAfterFallback primary fallback

/-- 1 troy ounce = 31.1035 grams (line 62). -/
def troyOunceGrams : Rat := 311035 / 10000

def pricePerGramUSD (goldPriceUSD : Rat) : Rat := goldPriceUSD / troyOunceGrams

def pricePerGramINR (goldPriceUSD usdToInr : Rat) : Rat :=
  pricePerGramUSD goldPriceUSD * usdToInr

def pricePer10GramsINR (goldPriceUSD usdToInr : Rat) : Rat :=
  pricePerGramINR goldPriceUSD usdToInr * 10

def purity24K : Rat := 1
def purity22K : Rat := 22 / 24
def purity18K : Rat := 18 / 24

/-- The `per10Grams` figure reported for a given purity tier (lines 91-104);
the `.toFixed(2)` presentation-layer formatting is not modelled, the theorems
are about the numeric values being formatted. -/
def per10GramsAt (goldPriceUSD usdToInr purity : Rat) : Rat :=
  pricePer10GramsINR goldPriceUSD usdToInr * purity

/-! ### Intent detection and language detection (hybrid-chat handler) -/

structure QueryIntent where
  needsStockData : Bool
  needsGoldData : Bool
  needsNewsData : Bool
  needsPoliticsData : Bool
  needsRAG : Bool
  detectedLanguage : String
  deriving Repr, DecidableEq

/-- A JavaScript `\w` word character: `[A-Za-z0-9_]`. -/
def isWordChar (c : Char) : Bool :=
  (97 ≤ c.toNat && c.toNat ≤ 122) || (65 ≤ c.toNat && c.toNat ≤ 90) ||
  (48 ≤ c.toNat && c.toNat ≤ 57) || c.toNat == 95

/-- ASCII lower-casing of a character code, the case folding performed by a
non-unicode-mode case-insensitive regex over ASCII keywords. -/
def lowerCode (n : Nat) : Nat := if 65 ≤ n ∧ n ≤ 90 then n + 32 else n

/-- Case-insensitive character comparison (regex `/i` flag). -/
def charIEq (a b : Char) : Bool := lowerCode a.toNat == lowerCode b.toNat

/-- Case-insensitively, `w` is an initial segment of the first list. -/
def prefixIMatch : List Char → List Char → Bool
  | _, [] => true
  | [], _ :: _ => false
  | c :: cs, d :: ds => charIEq c d && prefixIMatch cs ds

/-- There is no word character at position `i` (out-of-range counts as a
boundary). -/
def boundaryAt (text : List Char) (i : Nat) : Bool :=
  if h : i < text.length then !(isWordChar (text.get ⟨i, h⟩)) else true

/-- The keyword `w` occurs at position `i` of `text` delimited by `\b` word
boundaries on both sides, matched case-insensitively. -/
def matchesKeywordAt (text : List Char) (i : Nat) (w : List Char) : Bool :=
  prefixIMatch (text.drop i) w &&
  (i == 0 || boundaryAt text (i - 1)) &&
  boundaryAt text (i + w.length)

/-- The alternatives of the `hinglishPatterns` regex (line 62 of the
hybrid-chat source). -/
def hinglishKeywords : List String :=
  ["kya", "hai", "hain", "kaise", "kab", "kitna", "kitne", "aaj", "kal", "mein",
   "ka", "ki", "ke", "ko", "se", "par", "aur", "ya", "nahi", "nahin", "bahut",
   "accha", "theek", "sab", "bhi", "yeh", "woh", "kuch", "kaisa", "kaisi",
   "kahan", "kyun", "abhi", "phir", "lekin", "magar", "toh", "na", "ji", "haan",
   "arre", "yaar", "bhai", "dost"]

/-- `hinglishPatterns.test(text)`: some keyword occurs somewhere in the text
between word boundaries. -/
def hinglishTest (s : String) : Bool :=
  (List.range (s.data.length + 1)).any fun i =>
    hinglishKeywords.any fun w => matchesKeywordAt s.data i w.data

/-- `detectLanguage` (lines 52-67): Devanagari script check `[ऀ-ॿ]`,
then Arabic script check `[؀-ۿݐ-ݿ]`, then the Hinglish
keyword regex, else `'english'`. -/
def detectLanguage (text : String) : String :=
  if text.data.any (fun c => 0x900 ≤ c.toNat && c.toNat ≤ 0x97F) then "hindi"
  else if text.data.any (fun c =>
      (0x600 ≤ c.toNat && c.toNat ≤ 0x6FF) ||
      (0x750 ≤ c.toNat && c.toNat ≤ 0x77F)) then "urdu"
  else if hinglishTest text then "hinglish"
  else "english"

/-- `detectIntent` (lines 69-79): STRICT RAG MODE, every flag hardcoded. -/
def detectIntent (query : String) : QueryIntent :=
  { needsStockData := false
    needsGoldData := false
    needsNewsData := false
    needsPoliticsData := false
    needsRAG := true
    detectedLanguage := detectLanguage query }

/-! ### Document-context assembly (hybrid-chat handler, lines 260-272) -/

structure Doc where
  name : String
  content : String
  deriving Repr, DecidableEq

/-- The string appended for one document by the `documents.forEach` body: an
entry for a truthy (non-empty) `content`, nothing otherwise. -/
def docEntry (index : Nat) (doc : Doc) : String :=
  if doc.content ≠ "" then
    "\nDocument " ++ toString (index + 1) ++ ": \"" ++ doc.name ++
      "\"\nContent:\n" ++ strTake doc.content 5000 ++ "\n---\n"
  else ""

/-- The `forEach` loop over the document list, carrying the running index. -/
def docEntries (docs : List Doc) (index : Nat) : String :=
  match docs with
  | [] => ""
  | d :: rest => docEntry index d ++ docEntries rest (index + 1)

/-- `documentContext`: empty when the list is empty, otherwise a header
followed by the per-document entries. -/
def documentContext (docs : List Doc) : String :=
  if docs.length > 0 then
    "\n\n--- UPLOADED DOCUMENTS ---\n" ++ docEntries docs 0
  else ""

/-- The document list with every content truncated to its first 5000
characters (used to state that nothing beyond those characters can influence
the context block). -/
def truncateDocs (docs : List Doc) : List Doc :=
  docs.map fun d => { d with content := strTake d.content 5000 }

/-! ### AI-gateway error mapping (hybrid-chat handler, lines 355-376) -/

/-- `response.ok` of a fetch response: status in the range 200-299. -/
def isOkStatus (status : Nat) : Bool := 200 ≤ status && status ≤ 299

/-- The HTTP status the hybrid-chat handler returns to its client when the AI
gateway responded non-ok with the given status. -/
def gatewayErrorStatus (status : Nat) : Nat :=
  if status = 429 then 429
  else if status = 402 then 402
  else 500

/-! ### Transcribe-media handler (src/supabase/functions/transcribe-media/index.ts)

The handler's interactions with the environment are captured in a record of
outcomes; the handler itself is then a pure function from that record to the
HTTP response together with the content written to the `documents` row. -/

structure TranscribeEnv where
  /-- `Deno.env.get("LOVABLE_API_KEY")`. -/
  lovableApiKey : Option String
  /-- `Deno.env.get("SUPABASE_URL")`. -/
  supabaseUrl : Option String
  /-- `Deno.env.get("SUPABASE_SERVICE_ROLE_KEY")`. -/
  serviceRoleKey : Option String
  /-- `downloadError` of the storage download (`some message` on failure). -/
  downloadError : Option String
  /-- whether the storage download produced `fileData`. -/
  fileData : Bool
  /-- `response.ok` of the AI-gateway call. -/
  gatewayOk : Bool
  /-- `response.status` of the AI-gateway call. -/
  gatewayStatus : Nat
  /-- `result.choices?.[0]?.message?.content` of the gateway response. -/
  completionContent : Option String
  /-- `updateError` of the `documents` row update (`some message` on failure). -/
  updateError : Option String
  deriving Repr, DecidableEq

structure TranscribeResponse where
  status : Nat
  success : Bool
  transcriptField : Option String
  fullLengthField : Option Nat
  errorField : Option String
  deriving Repr, DecidableEq

structure TranscribeResult where
  response : TranscribeResponse
  /-- content written to the matching `documents` row, when the update ran
  and succeeded. -/
  dbContent : Option String
  deriving Repr, DecidableEq

/-- The catch-all branch (lines 145-154): every thrown error becomes a 500
response with `success: false` and the error message. -/
def transcribeError (msg : String) : TranscribeResult :=
  { response :=
      { status := 500
        success := false
        transcriptField := none
        fullLengthField := none
        errorField := some msg }
    dbContent := none }

/-- The transcribe-media handler body (lines 15-143): each `throw` site in
order, then the success response built from `transcript.slice(0, 500)`, the
conditional `'...'` suffix, and `transcript.length`.  The local variable
`transcript = result.choices?.[0]?.message?.content || ""` is written out as
`env.completionContent.getD ""` at each use site. -/
def runTranscribe (env : TranscribeEnv) : TranscribeResult :=
  if env.lovableApiKey.isNone then
    transcribeError "LOVABLE_API_KEY is not configured"
  else if env.supabaseUrl.isNone || env.serviceRoleKey.isNone then
    transcribeError "Supabase credentials not configured"
  else if env.downloadError.isSome || !env.fileData then
    transcribeError ("Failed to download file: " ++ env.downloadError.getD "undefined")
  else if !env.gatewayOk then
    transcribeError ("Transcription failed: " ++ toString env.gatewayStatus)
  else if env.completionContent.getD "" = "" then
    transcribeError "No transcript generated"
  else
    match env.updateError with
    | some m => transcribeError ("Failed to save transcript: " ++ m)
    | none =>
      { response :=
          { status := 200
            success := true
            transcriptField := some (strTake (env.completionContent.getD "") 500 ++
              (if (env.completionContent.getD "").length > 500 then "..." else ""))
            fullLengthField := some (env.completionContent.getD "").length
            errorField := none }
        dbContent := some (env.completionContent.getD "") }

/-- An environment in which every step succeeds and the generated transcript
is the five-character string "hello". -/
def shortTranscriptEnv : TranscribeEnv :=
  { lovableApiKey := some "key"
    supabaseUrl := some "url"
    serviceRoleKey := some "service"
    downloadError := none
    fileData := true
    gatewayOk := true
    gatewayStatus := 200
    completionContent := some "hello"
    updateError := none }

/-- An environment in which the AI-gateway key is absent. -/
def missingKeyEnv : TranscribeEnv :=
  { lovableApiKey := none
    supabaseUrl := some "url"
    serviceRoleKey := some "service"
    downloadError := none
    fileData := true
    gatewayOk := true
    gatewayStatus := 200
    completionContent := some "hello"
    updateError := none }

/-! ### Upload validation (FileUploadDialog component) -/

def ALLOWED_TYPES : List String :=
  ["application/pdf", "text/plain", "image/png", "image/jpeg", "image/jpg",
   "image/webp", "video/mp4", "video/quicktime", "video/webm", "audio/mpeg",
   "audio/wav", "audio/x-wav", "audio/mp4", "audio/x-m4a"]

/-- 50MB, the limit for video/audio. -/
def MAX_FILE_SIZE : Nat := 50 * 1024 * 1024

def MEDIA_TYPES : List String :=
  ["video/mp4", "video/quicktime", "video/webm", "audio/mpeg", "audio/wav",
   "audio/x-wav", "audio/mp4", "audio/x-m4a"]

/-- `validateFile` (lines 72-84 of the component): `none` means the file is
accepted, `some message` is the rejection message.  The local variables
`isMedia`, `sizeLimit` and `sizeLimitLabel` are written out at each use site;
the dynamic megabyte rendering of the actual file size appended to the size
message is not modelled. -/
def validateFile (fileType : String) (fileSize : Nat) : Option String :=
  if !(ALLOWED_TYPES.contains fileType) then
    some "Unsupported file type. Please upload PDF, TXT, PNG, JPG, WEBP, MP4, MOV, WEBM, MP3, WAV, or M4A files."
  else if fileSize > (if MEDIA_TYPES.contains fileType then MAX_FILE_SIZE else 10 * 1024 * 1024) then
    some ("File too large. Maximum size is " ++
      (if MEDIA_TYPES.contains fileType then "50MB" else "10MB") ++ ".")
  else none

/-! ### Helper lemmas -/

theorem strTake_idem (s : String) (n : Nat) : strTake (strTake s n) n = strTake s n := by
  cases s with
  | mk data => simp [strTake, List.take_take]

theorem strTake_eq_empty_iff (s : String) (n : Nat) (hn : n ≠ 0) :
    strTake s n = "" ↔ s = "" := by
  constructor
  · intro h
    have hd : (strTake s n).data = [] := by rw [h]
    simp only [strTake, List.take_eq_nil_iff] at hd
    rcases hd with hd | hd
    · exact absurd hd hn
    · exact String.ext (by simpa using hd)
  · intro h
    subst h
    apply String.ext
    simp [strTake]

theorem docEntry_truncate (i : Nat) (d : Doc) :
    docEntry i { d with content := strTake d.content 5000 } = docEntry i d := by
  unfold docEntry
  by_cases h : d.content = ""
  · rw [h]
    simp [strTake]
  · have h5 : strTake d.content 5000 ≠ "" := fun hc =>
      h ((strTake_eq_empty_iff d.content 5000 (by norm_num)).mp hc)
    simp [h, h5, strTake_idem]

theorem docEntries_truncate (docs : List Doc) (i : Nat) :
    docEntries (truncateDocs docs) i = docEntries docs i := by
  induction docs generalizing i with
  | nil => rfl
  | cons d rest ih =>
    simp only [truncateDocs, List.map] at ih ⊢
    simp only [docEntries, docEntry_truncate, ih]

theorem validateFile_accept_iff (t : String) (size : Nat)
    (ht : ALLOWED_TYPES.contains t = true) :
    (validateFile t size = none ↔
      size ≤ (if MEDIA_TYPES.contains t then MAX_FILE_SIZE else 10 * 1024 * 1024)) := by
  unfold validateFile
  rw [ht]
  by_cases hm : MEDIA_TYPES.contains t = true
  · simp only [hm, if_true, Bool.not_true, Bool.false_eq_true, if_false, MAX_FILE_SIZE]
    split_ifs with hgt
    · constructor
      · intro hcontra
        exact absurd hcontra (by simp)
      · intro hle
        omega
    · constructor
      · intro _
        omega
      · intro _
        rfl
  · simp only [hm, if_false, Bool.not_true, Bool.false_eq_true]
    split_ifs with hgt
    · constructor
      · intro hcontra
        exact absurd hcontra (by simp)
      · intro hle
        omega
    · constructor
      · intro _
        omega
      · intro _
        rfl

/-! ### Claim theorems -/

/-- C1 counterexample: when the primary provider returns exactly 100 USD per
ounce, the value is kept (100 < 100 is false), so the reported
`pricePerOunceUSD` is 100 and not strictly greater than 100. -/
theorem goldPrice_exact_100_kept :
    resolveGoldPriceUSD (some 100) none = 100 ∧
      ¬ (100 < resolveGoldPriceUSD (some 100) none) := by
  constructor
  · norm_num [resolveGoldPriceUSD, goldAfterFallback]
  · norm_num [resolveGoldPriceUSD, goldAfterFallback]

/-- C1 (amended): for every combination of primary and fallback provider
outcomes the resolved gold price is at least 100 USD per ounce, and whenever
the value accumulated from the providers is falsy or below 100 it is replaced
by the fixed constant 2680. -/
theorem goldPrice_at_least_100 (primary fallback : Option Rat) :
    100 ≤ resolveGoldPriceUSD primary fallback ∧
      ((goldAfterFallback primary fallback = 0 ∨ goldAfterFallback primary fallback < 100) →
        resolveGoldPriceUSD primary fallback = 2680) := by
  by_cases h : goldAfterFallback primary fallback = 0 ∨ goldAfterFallback primary fallback < 100
  · constructor
    · rw [resolveGoldPriceUSD, if_pos h]
      norm_num
    · intro _
      rw [resolveGoldPriceUSD, if_pos h]
  · constructor
    · rw [resolveGoldPriceUSD, if_neg h]
      push_neg at h
      exact h.2
    · intro hc
      exact absurd hc h

/-- Witness for the amended C1: both providers failing yields the constant
2680. -/
theorem goldPrice_at_least_100_witness :
    100 ≤ resolveGoldPriceUSD none none ∧ resolveGoldPriceUSD none none = 2680 :=
  ⟨(goldPrice_at_least_100 none none).1,
    (goldPrice_at_least_100 none none).2 (Or.inl (by norm_num [goldAfterFallback]))⟩

/-- C2: `detectIntent` is hardcoded to STRICT RAG MODE — for every query the
four live-data flags are false and `needsRAG` is true, regardless of any
keywords the query contains. -/
theorem detectIntent_strict_rag (query : String) :
    detectIntent query =
      { needsStockData := false
        needsGoldData := false
        needsNewsData := false
        needsPoliticsData := false
        needsRAG := true
        detectedLanguage := detectLanguage query } := rfl

/-- C3: for every positive base gold price and positive exchange rate the
per-10-gram purity prices are ordered 18K ≤ 22K ≤ 24K. -/
theorem purity_prices_monotone (g r : Rat) (hg : 0 < g) (hr : 0 < r) :
    per10GramsAt g r purity18K ≤ per10GramsAt g r purity22K ∧
      per10GramsAt g r purity22K ≤ per10GramsAt g r purity24K := by
  have hbase : 0 < pricePer10GramsINR g r := by
    unfold pricePer10GramsINR pricePerGramINR pricePerGramUSD troyOunceGrams
    positivity
  unfold per10GramsAt purity18K purity22K purity24K
  constructor <;> nlinarith [hbase]

/-- Witness for C3 at the fallback price 2680 USD/oz and the default exchange
rate 83.5. -/
theorem purity_prices_monotone_witness :
    (0 : Rat) < 2680 ∧ (0 : Rat) < 167 / 2 ∧
      (per10GramsAt 2680 (167 / 2) purity18K ≤ per10GramsAt 2680 (167 / 2) purity22K ∧
        per10GramsAt 2680 (167 / 2) purity22K ≤ per10GramsAt 2680 (167 / 2) purity24K) :=
  ⟨by norm_num, by norm_num, purity_prices_monotone 2680 (167 / 2) (by norm_num) (by norm_num)⟩

/-- C4: `detectLanguage` returns `'hindi'` for any string containing a
Devanagari-range character, `'urdu'` for any string without Devanagari but
containing an Arabic-script character, `'hinglish'` on `"kya hai yeh"` and
`'english'` on `"what is this"`. -/
theorem detectLanguage_cases (s t : String)
    (hs : s.data.any (fun c => 0x900 ≤ c.toNat && c.toNat ≤ 0x97F) = true)
    (ht1 : t.data.any (fun c => 0x900 ≤ c.toNat && c.toNat ≤ 0x97F) = false)
    (ht2 : t.data.any (fun c =>
      (0x600 ≤ c.toNat && c.toNat ≤ 0x6FF) ||
      (0x750 ≤ c.toNat && c.toNat ≤ 0x77F)) = true) :
    detectLanguage s = "hindi" ∧ detectLanguage t = "urdu" ∧
      detectLanguage "kya hai yeh" = "hinglish" ∧
      detectLanguage "what is this" = "english" := by
  refine ⟨?_, ?_, by decide, by decide⟩
  · rw [detectLanguage, if_pos hs]
  · rw [detectLanguage, if_neg (by simp [ht1]), if_pos ht2]

/-- Witness for C4 on the single-character strings "अ" (Devanagari) and
"ا" (Arabic). -/
theorem detectLanguage_cases_witness :
    detectLanguage "अ" = "hindi" ∧ detectLanguage "ا" = "urdu" ∧
      detectLanguage "kya hai yeh" = "hinglish" ∧
      detectLanguage "what is this" = "english" :=
  detectLanguage_cases "अ" "ا" (by decide) (by decide) (by decide)

/-- C5: for a non-ok AI-gateway status the hybrid-chat handler returns 429 for
429, 402 for 402, and 500 for every other status; the returned status is
always one of 429, 402 or 500. -/
theorem gateway_error_mapping (status : Nat) (_h : isOkStatus status = false) :
    (status = 429 → gatewayErrorStatus status = 429) ∧
      (status = 402 → gatewayErrorStatus status = 402) ∧
      (status ≠ 429 → status ≠ 402 → gatewayErrorStatus status = 500) ∧
      (gatewayErrorStatus status = 429 ∨ gatewayErrorStatus status = 402 ∨
        gatewayErrorStatus status = 500) := by
  refine ⟨fun h429 => ?_, fun h402 => ?_, fun h1 h2 => ?_, ?_⟩
  · simp [gatewayErrorStatus, h429]
  · simp [gatewayErrorStatus, h402]
  · simp [gatewayErrorStatus, h1, h2]
  · by_cases h429 : status = 429
    · simp [gatewayErrorStatus, h429]
    · by_cases h402 : status = 402 <;> simp [gatewayErrorStatus, h429, h402]

/-- Witness for C5: the upstream status 503 is mapped to 500. -/
theorem gateway_error_mapping_witness :
    isOkStatus 503 = false ∧ gatewayErrorStatus 503 = 500 :=
  ⟨by decide, (gateway_error_mapping 503 (by decide)).2.2.1 (by decide) (by decide)⟩

/-- C6: the transcribe-media handler returns a 500 response with
`success = false` whenever a required credential is absent, the storage
download fails, the gateway call is non-ok, the extracted completion is empty,
or the database update fails; in every such case no transcript is returned. -/
theorem transcribe_failure_modes_500 (env : TranscribeEnv)
    (h : env.lovableApiKey = none ∨ env.supabaseUrl = none ∨ env.serviceRoleKey = none ∨
      env.downloadError ≠ none ∨ env.fileData = false ∨ env.gatewayOk = false ∨
      env.completionContent.getD "" = "" ∨ env.updateError ≠ none) :
    (runTranscribe env).response.status = 500 ∧
      (runTranscribe env).response.success = false ∧
      (runTranscribe env).response.transcriptField = none := by
  by_cases h1 : env.lovableApiKey.isNone = true
  · simp [runTranscribe, h1, transcribeError]
  by_cases h2 : (env.supabaseUrl.isNone || env.serviceRoleKey.isNone) = true
  · simp [runTranscribe, h1, h2, transcribeError]
  by_cases h3 : (env.downloadError.isSome || !env.fileData) = true
  · simp [runTranscribe, h1, h2, h3, transcribeError]
  by_cases h4 : (!env.gatewayOk) = true
  · simp [runTranscribe, h1, h2, h3, h4, transcribeError]
  by_cases h5 : env.completionContent.getD "" = ""
  · simp [runTranscribe, h1, h2, h3, h4, h5, transcribeError]
  cases hupd : env.updateError with
  | some m => simp [runTranscribe, h1, h2, h3, h4, h5, hupd, transcribeError]
  | none =>
    exfalso
    simp only [Option.isNone_iff_eq_none, Bool.or_eq_true, Bool.not_eq_true',
      Option.isSome_iff_ne_none, not_or] at h1 h2 h3 h4
    rcases h with h | h | h | h | h | h | h | h <;> simp_all

/-- Witness for C6: a missing AI-gateway key yields a 500 with no transcript. -/
theorem transcribe_failure_modes_500_witness :
    (runTranscribe missingKeyEnv).response.status = 500 ∧
      (runTranscribe missingKeyEnv).response.success = false ∧
      (runTranscribe missingKeyEnv).response.transcriptField = none :=
  transcribe_failure_modes_500 missingKeyEnv (Or.inl rfl)

/-- C7: `validateFile` rejects MIME type `application/zip` at every size, and
for `video/mp4` accepts every size up to 50·1024·1024 bytes and rejects every
size strictly above it. -/
theorem validateFile_zip_mp4 (fileSize : Nat) :
    (validateFile "application/zip" fileSize).isSome = true ∧
      (fileSize ≤ 50 * 1024 * 1024 → validateFile "video/mp4" fileSize = none) ∧
      (50 * 1024 * 1024 < fileSize → (validateFile "video/mp4" fileSize).isSome = true) := by
  have hzip : ALLOWED_TYPES.contains "application/zip" = false := by decide
  have hmp4 : ALLOWED_TYPES.contains "video/mp4" = true := by decide
  have hmedia : MEDIA_TYPES.contains "video/mp4" = true := by decide
  have hiff := validateFile_accept_iff "video/mp4" fileSize hmp4
  rw [hmedia] at hiff
  simp only [if_true, MAX_FILE_SIZE] at hiff
  norm_num at hiff
  refine ⟨?_, fun hle => hiff.mpr hle, fun hgt => ?_⟩
  · unfold validateFile
    rw [hzip]
    rfl
  · rw [Option.isSome_iff_ne_none]
    intro hnone
    have := hiff.mp hnone
    omega

/-- Witness for C7 at sizes 0, exactly 50MB, and 50MB + 1. -/
theorem validateFile_zip_mp4_witness :
    (validateFile "application/zip" 0).isSome = true ∧
      validateFile "video/mp4" (50 * 1024 * 1024) = none ∧
      (validateFile "video/mp4" (50 * 1024 * 1024 + 1)).isSome = true :=
  ⟨(validateFile_zip_mp4 0).1,
    (validateFile_zip_mp4 (50 * 1024 * 1024)).2.1 (by omega),
    (validateFile_zip_mp4 (50 * 1024 * 1024 + 1)).2.2 (by omega)⟩

/-- C8: the document-context block is unchanged when every document content is
replaced by its first 5000 characters (so nothing beyond those characters can
reach the system prompt), and a document with empty content contributes
nothing. -/
theorem documentContext_truncation :
    (∀ docs : List Doc, documentContext docs = documentContext (truncateDocs docs)) ∧
      (∀ (i : Nat) (d : Doc), d.content = "" → docEntry i d = "") := by
  constructor
  · intro docs
    have hlen : (truncateDocs docs).length = docs.length := by
      simp [truncateDocs]
    unfold documentContext
    rw [hlen, docEntries_truncate]
  · intro i d hdc
    simp [docEntry, hdc]

/-- Witness for C8: a three-character document is unchanged by truncation and
an empty-content document contributes the empty string. -/
theorem documentContext_truncation_witness :
    documentContext [{ name := "a.txt", content := "xyz" }] =
        documentContext (truncateDocs [{ name := "a.txt", content := "xyz" }]) ∧
      docEntry 3 { name := "b.txt", content := "" } = "" :=
  ⟨documentContext_truncation.1 [{ name := "a.txt", content := "xyz" }],
    documentContext_truncation.2 3 { name := "b.txt", content := "" } rfl⟩

/-- C9 counterexample: for a successful run whose generated transcript is the
five-character string "hello", the HTTP response's transcript field is exactly
the full transcript (no truncation applies and no suffix is appended), so the
full transcript IS returned in the HTTP response, contradicting the claim that
it never is. -/
theorem transcribe_short_transcript_returned_whole :
    (runTranscribe shortTranscriptEnv).response.success = true ∧
      (runTranscribe shortTranscriptEnv).dbContent = some "hello" ∧
      (runTranscribe shortTranscriptEnv).response.transcriptField = some "hello" := by
  refine ⟨?_, ?_, ?_⟩ <;> rfl

/-- C9 (amended): on success the response's transcript field is the first 500
characters of the generated transcript with `'...'` appended exactly when the
transcript is longer than 500 characters, its fullLength field is the length
of the full transcript, and the full transcript is written to the database. -/
theorem transcribe_success_response_shape (env : TranscribeEnv)
    (h : (runTranscribe env).response.success = true) :
    (runTranscribe env).response.transcriptField =
        some (strTake (env.completionContent.getD "") 500 ++
          (if (env.completionContent.getD "").length > 500 then "..." else "")) ∧
      (runTranscribe env).response.fullLengthField =
        some (env.completionContent.getD "").length ∧
      (runTranscribe env).dbContent = some (env.completionContent.getD "") := by
  by_cases h1 : env.lovableApiKey.isNone = true
  · simp [runTranscribe, h1, transcribeError] at h
  by_cases h2 : (env.supabaseUrl.isNone || env.serviceRoleKey.isNone) = true
  · simp [runTranscribe, h1, h2, transcribeError] at h
  by_cases h3 : (env.downloadError.isSome || !env.fileData) = true
  · simp [runTranscribe, h1, h2, h3, transcribeError] at h
  by_cases h4 : (!env.gatewayOk) = true
  · simp [runTranscribe, h1, h2, h3, h4, transcribeError] at h
  by_cases h5 : env.completionContent.getD "" = ""
  · simp [runTranscribe, h1, h2, h3, h4, h5, transcribeError] at h
  cases hupd : env.updateError with
  | some m => simp [runTranscribe, h1, h2, h3, h4, h5, hupd, transcribeError] at h
  | none => simp [runTranscribe, h1, h2, h3, h4, h5, hupd]

/-- Witness for the amended C9 at a successful five-character transcript. -/
theorem transcribe_success_response_shape_witness :
    (runTranscribe shortTranscriptEnv).response.transcriptField =
        some (strTake (shortTranscriptEnv.completionContent.getD "") 500 ++
          (if (shortTranscriptEnv.completionContent.getD "").length > 500 then "..." else "")) ∧
      (runTranscribe shortTranscriptEnv).response.fullLengthField =
        some (shortTranscriptEnv.completionContent.getD "").length ∧
      (runTranscribe shortTranscriptEnv).dbContent =
        some (shortTranscriptEnv.completionContent.getD "") :=
  transcribe_success_response_shape shortTranscriptEnv (by decide)

/-- C10: for every allowed non-media MIME type `validateFile` accepts a file
exactly when its size is at most 10·1024·1024 bytes, while for the listed
media types the threshold is 50·1024·1024 bytes. -/
theorem validateFile_nonmedia_limit (t : String) (size : Nat)
    (ht : ALLOWED_TYPES.contains t = true) :
    (MEDIA_TYPES.contains t = false →
        (validateFile t size = none ↔ size ≤ 10 * 1024 * 1024)) ∧
      (MEDIA_TYPES.contains t = true →
        (validateFile t size = none ↔ size ≤ 50 * 1024 * 1024)) := by
  have hiff := validateFile_accept_iff t size ht
  constructor
  · intro hm
    rw [hm] at hiff
    simpa using hiff
  · intro hm
    rw [hm] at hiff
    simp only [if_true, MAX_FILE_SIZE] at hiff
    norm_num at hiff
    exact hiff

/-- Witness for C10 on `application/pdf` at the 10MB threshold and just
above it. -/
theorem validateFile_nonmedia_limit_witness :
    validateFile "application/pdf" (10 * 1024 * 1024) = none ∧
      ¬ validateFile "application/pdf" (10 * 1024 * 1024 + 1) = none := by
  constructor
  · exact ((validateFile_nonmedia_limit "application/pdf" (10 * 1024 * 1024)
      (by decide)).1 (by decide)).mpr (by omega)
  · intro hnone
    have := ((validateFile_nonmedia_limit "application/pdf" (10 * 1024 * 1024 + 1)
      (by decide)).1 (by decide)).mp hnone
    omega
